import Mathlib

/-!
# Verification of the inventory-service stock endpoints

A shallow embedding of `app/main.py` and `app/auth/dependencies.py` from the
CNA-25/inventory-service repository, together with proofs about the decrement
transaction, authentication dependencies, and the delete endpoint.

Modelling conventions:
* The products table is a `Store`, an association list from SKU to stock.
  `SELECT ... WHERE sku = :c` is first-match lookup; `UPDATE`/`DELETE` act on
  every matching row, as the SQL does.
* `database.transaction()` is modelled by returning the original store when the
  body raises (rollback) and the updated store when it returns (commit).
* Store and notifier interactions are additionally recorded in an event trace,
  so ordering facts (e.g. whether the notifier runs before the commit) are
  statable.
* The Python identity `dict` is projected onto the keys the code reads
  (`user_id`, `email`, `role`, `token`), each an `Option` so that a missing key
  (Python `KeyError`) is representable.
* `requests.post` in `send_shipping_confirmation` is modelled by a
  `NotifyBehavior` input: the HTTP status the external service answers, or a
  raised transport exception.
-/

/-- A decrement/increase request entry.
Modelled from the spec: `app/classes.py` is not in the sources; the spec's
DecrementRequest is "a `productCode` and a positive integer `quantity`",
with zero/negative quantities representable (they are rejected at runtime). -/
structure Item where
  productCode : String
  quantity : Int
  deriving DecidableEq, Repr

/-- The response model `Product(productCode=..., stock=...)`. -/
structure Product where
  productCode : String
  stock : Int
  deriving DecidableEq, Repr

/-- The persisted products table: rows of (sku, stock). -/
abbrev Store := List (String × Int)

/-- `SELECT ... FROM products WHERE sku = :productCode` (first matching row). -/
def lookupStock : Store → String → Option Int
  | [], _ => none
  | (k, v) :: rest, sku => if k = sku then some v else lookupStock rest sku

/-- `UPDATE products SET stock = :n WHERE sku = :productCode` (every matching row). -/
def writeStock : Store → String → Int → Store
  | [], _, _ => []
  | (k, v) :: rest, sku, n =>
      (k, if k = sku then n else v) :: writeStock rest sku n

/-- `DELETE FROM products WHERE sku = :productCode` (every matching row). -/
def deleteSku (store : Store) (sku : String) : Store :=
  store.filter (fun p => p.1 ≠ sku)

/-- Modelled from the spec: `ensure_valid_quantity` lives in `app/utils.py`,
which is not in the sources. Per the spec, a quantity is valid iff it is
positive; zero/negative is rejected as `InvalidQuantity` (HTTP 400). -/
def ensure_valid_quantity (q : Int) : Bool := 0 < q

/-- Events recorded while an endpoint runs, in execution order. -/
inductive Event where
  /-- `SELECT ... FOR UPDATE` on a SKU: lock and read inside the unit of work. -/
  | read (sku : String)
  /-- An `UPDATE` writing a new stock value inside the unit of work. -/
  | write (sku : String) (newStock : Int)
  /-- Invocation of `send_shipping_confirmation` (the notifier HTTP POST). -/
  | notify (token : String) (shipped : List (String × Int))
  /-- The unit of work committed. -/
  | commit
  /-- The unit of work rolled back. -/
  | rollback
  deriving DecidableEq, Repr

/-- The validation failures of the decrement loop, with HTTP detail data. -/
inductive DecError where
  | notFound (sku : String)
  | invalidQuantity (sku : String) (q : Int)
  | insufficientStock (sku : String) (requested available : Int)
  deriving DecidableEq, Repr

/-- HTTP status the loop failures map to (404 for a missing product, 400 for
an invalid quantity or insufficient stock). -/
def statusOf : DecError → Nat
  | .notFound _ => 404
  | .invalidQuantity _ _ => 400
  | .insufficientStock _ _ _ => 400

/-- Outcome of the `/inventory/decrease` endpoint as seen by the caller. -/
inductive DecResult where
  /-- Normal return of the updated products. -/
  | ok (products : List Product)
  /-- An `HTTPException` raised inside the transaction. -/
  | httpError (status : Nat) (e : DecError)
  /-- A Python `KeyError` on a missing dict key, propagating as a 500. -/
  | keyError (key : String)
  /-- An exception raised by `requests.post`, propagating as a 500. -/
  | networkError
  deriving DecidableEq, Repr

/-- The Python identity dict, projected onto the keys the code reads.
Each field is the value of that key when present, `none` when the key is
absent (so a plain `user[k]` access on a `none` field is a `KeyError`). -/
structure UserDict where
  user_id : Option String
  email : Option String
  role : Option (List String)
  token : Option String
  deriving DecidableEq, Repr

/-- How the external shipping service answers the notifier POST. -/
inductive NotifyBehavior where
  /-- `requests.post` returns a response with this status code. -/
  | status (code : Nat)
  /-- `requests.post` raises (network error, timeout, ...). -/
  | raiseExc
  deriving DecidableEq, Repr

/-- What `send_shipping_confirmation` does once invoked: a 200 response is
logged as success, any other status is logged as failure, and a transport
exception propagates to the caller. -/
inductive NotifyResult where
  | loggedSuccess
  | loggedFailure
  | raised
  deriving DecidableEq, Repr

/-- `send_shipping_confirmation`: posts the shipment summary and inspects
`response.status_code == 200`; it never itself absorbs a transport
exception. -/
def send_shipping_confirmation (nb : NotifyBehavior) : NotifyResult :=
  match nb with
  | .raiseExc => .raised
  | .status code => if code = 200 then .loggedSuccess else .loggedFailure

/-- Result of the `for item in request.items` loop of `decrease_stock`:
either the in-transaction store with the accumulated products, shipped
info and events, or the first error with the events up to it. -/
inductive LoopOut where
  | ok (store : Store) (products : List Product)
      (shipped : List (String × Int)) (events : List Event)
  | err (e : DecError) (events : List Event)
  deriving DecidableEq, Repr

/-- The body of the decrement loop: for each item, `SELECT ... FOR UPDATE`
(read), 404 on a missing row, `ensure_valid_quantity`, 400 on insufficient
stock, then `UPDATE ... stock - :quantity` recording the updated product and
the shipped pair. The running store carries earlier decrements of the same
unit of work. -/
def runItems (store : Store) (items : List Item) (prods : List Product)
    (shipped : List (String × Int)) (evs : List Event) : LoopOut :=
  match items with
  | [] => .ok store prods shipped evs
  | item :: rest =>
    let evs := evs ++ [.read item.productCode]
    match lookupStock store item.productCode with
    | none => .err (.notFound item.productCode) evs
    | some stock =>
      if ensure_valid_quantity item.quantity then
        if stock < item.quantity then
          .err (.insufficientStock item.productCode item.quantity stock) evs
        else
          runItems (writeStock store item.productCode (stock - item.quantity)) rest
            (prods ++ [⟨item.productCode, stock - item.quantity⟩])
            (shipped ++ [(item.productCode, item.quantity)])
            (evs ++ [.write item.productCode (stock - item.quantity)])
      else .err (.invalidQuantity item.productCode item.quantity) evs

/-- `/inventory/decrease`: the loop runs inside `database.transaction()`; on
any exception the transaction rolls back (the persisted store is unchanged),
on normal return it commits. After the loop, still inside the transaction,
the code reads `user.get("role", [])`, and for a non-admin requester awaits
`send_shipping_confirmation(user["token"], shipped_info)` before the block
exits — so the notifier call precedes the commit, a missing `token` key is a
`KeyError`, and a raised transport exception rolls the batch back. -/
def decrease_stock (store : Store) (user : UserDict) (items : List Item)
    (nb : NotifyBehavior) : DecResult × Store × List Event :=
  match runItems store items [] [] [] with
  | .err e evs => (.httpError (statusOf e) e, store, evs ++ [.rollback])
  | .ok store₁ prods shipped evs =>
    if "admin" ∈ user.role.getD [] then
      (.ok prods, store₁, evs ++ [.commit])
    else
      match user.token with
      | none => (.keyError "token", store, evs ++ [.rollback])
      | some tok =>
        match send_shipping_confirmation nb with
        | .raised => (.networkError, store, evs ++ [.notify tok shipped, .rollback])
        | _ => (.ok prods, store₁, evs ++ [.notify tok shipped, .commit])

/-- The claims decoded from the bearer JWT, projected onto the keys
`get_current_user` reads (`sub`, `email`, `role`). -/
structure JwtPayload where
  sub : Option String
  email : Option String
  role : Option (List String)
  deriving DecidableEq, Repr

/-- Outcome of `jwt.decode` on the presented bearer token. -/
inductive JwtOutcome where
  | expired
  | invalid
  | decoded (p : JwtPayload)
  deriving DecidableEq, Repr

/-- Result of an authentication dependency: a 401 with a detail message, or
the identity dict handed to the endpoint. -/
inductive AuthResult where
  | err401 (detail : String)
  | okUser (u : UserDict)
  deriving DecidableEq, Repr

/-- `get_current_user`: decodes the token; an expired token is a 401
"Token har gått ut", an invalid one a 401 credentials error; with a decoded
payload, missing `sub` or `email` is the credentials error, and otherwise the
returned dict has exactly the keys `user_id`, `email` and `role` (with
`payload.get("role", [])` as the role value) — in particular no `token` key. -/
def get_current_user (j : JwtOutcome) : AuthResult :=
  match j with
  | .expired => .err401 "Token har gått ut"
  | .invalid => .err401 "Kunde inte validera dina uppgifter"
  | .decoded p =>
    match p.sub, p.email with
    | some uid, some em =>
        .okUser ⟨some uid, some em, some (p.role.getD []), none⟩
    | _, _ => .err401 "Kunde inte validera dina uppgifter"

/-- Python truthiness of the `X-Override-Key` header value: an absent header
is `None` (falsy) and an empty string is falsy. -/
def headerTruthy : Option String → Bool
  | none => false
  | some s => s ≠ ""

/-- `override_key == OVERRIDE_KEY` in Python: the header string (when present)
compared to the configured key, which is `None` when the environment variable
is unset (a string never equals `None`). -/
def overrideKeyMatches (header : Option String) (cfg : Option String) : Bool :=
  match header, cfg with
  | some h, some c => h = c
  | _, _ => false

/-- `get_current_admin_user`: resolves `get_current_user` first (a 401 there
propagates); then, if the `X-Override-Key` header is truthy and equals the
configured `OVERRIDE_KEY`, returns the fixed override-admin identity without
looking at the user's roles; otherwise requires "admin" in `user["role"]`,
rejecting with 401 "Åtkomst nekad". -/
def get_current_admin_user (cfg : Option String) (j : JwtOutcome)
    (override_key : Option String) : AuthResult :=
  match get_current_user j with
  | .err401 d => .err401 d
  | .okUser user =>
    if headerTruthy override_key && overrideKeyMatches override_key cfg then
      .okUser ⟨some "override_admin", some "admin@example.com", some ["admin"], none⟩
    else
      match user.role with
      | some roles =>
          if "admin" ∈ roles then .okUser user else .err401 "Åtkomst nekad"
      | none => .err401 "Åtkomst nekad"

/-- Outcome of `/inventory/increase`. -/
inductive IncResult where
  | ok (p : Product)
  | err404 (sku : String)
  | err400InvalidQuantity (q : Int)
  deriving DecidableEq, Repr

/-- `/inventory/increase`: reads the row (404 when absent), then
`ensure_valid_quantity`, then `UPDATE ... stock + :quantity`. No transaction
block is opened; the single update is atomic on its own. -/
def increase_stock (store : Store) (req : Item) : IncResult × Store :=
  match lookupStock store req.productCode with
  | none => (.err404 req.productCode, store)
  | some stock =>
    if ensure_valid_quantity req.quantity then
      (.ok ⟨req.productCode, stock + req.quantity⟩,
        writeStock store req.productCode (stock + req.quantity))
    else
      (.err400InvalidQuantity req.quantity, store)

/-- Outcome of `/inventory` DELETE: the success messages (modelled by the
deleted SKUs, in order) or the 404 for the first missing SKU. -/
inductive DelResult where
  | ok (deleted : List String)
  | err404 (sku : String)
  deriving DecidableEq, Repr

/-- The `for request in requests` loop of `delete_products`: each entry is
looked up (404 aborts the loop at once) and then deleted. There is no
transaction: deletions performed before a 404 stay in the store. -/
def delLoop (store : Store) (reqs : List String) (msgs : List String) :
    DelResult × Store :=
  match reqs with
  | [] => (.ok msgs, store)
  | sku :: rest =>
    match lookupStock store sku with
    | none => (.err404 sku, store)
    | some _ => delLoop (deleteSku store sku) rest (msgs ++ [sku])

/-- `/inventory` DELETE entry point. -/
def delete_products (store : Store) (reqs : List String) : DelResult × Store :=
  delLoop store reqs []

/-- A product-creation entry.
Modelled from the spec: `app/classes.py` is not in the sources; the spec's
Product data model carries a `productCode` and a `stock` with the invariant
`stock >= 0`. -/
structure ProductCreate where
  productCode : String
  stock : Int
  deriving DecidableEq, Repr

/-- `/inventory` POST: inserts each entry in order (no validation beyond the
request model, no transaction). -/
def create_products (store : Store) (ps : List ProductCreate) : Store :=
  match ps with
  | [] => store
  | p :: rest => create_products (store ++ [(p.productCode, p.stock)]) rest

/-- Every persisted stock value is non-negative. -/
def nonneg (store : Store) : Prop := ∀ p ∈ store, 0 ≤ p.2

instance (store : Store) : Decidable (nonneg store) :=
  List.decidableBAll _ store

/-- Number of notifier invocations in a trace. -/
def notifyCount (evs : List Event) : Nat :=
  evs.countP (fun e => match e with | .notify _ _ => true | _ => false)

/-- Whether a trace contains a notifier invocation. -/
def hasNotify (evs : List Event) : Bool :=
  evs.any (fun e => match e with | .notify _ _ => true | _ => false)

/-- Whether a trace contains a store write. -/
def hasWrite (evs : List Event) : Bool :=
  evs.any (fun e => match e with | .write _ _ => true | _ => false)

/-- One serialized operation against the store. The `FOR UPDATE` row locks of
the decrement transaction totally order units of work touching a SKU, so a
concurrent history is modelled as a sequence of whole operations. -/
inductive Op where
  | dec (user : UserDict) (items : List Item) (nb : NotifyBehavior)
  | inc (req : Item)
  | del (reqs : List String)
  | create (ps : List ProductCreate)
  deriving Repr

/-- The store an operation leaves behind. -/
def applyOp (store : Store) : Op → Store
  | .dec user items nb => (decrease_stock store user items nb).2.1
  | .inc req => (increase_stock store req).2
  | .del reqs => (delete_products store reqs).2
  | .create ps => create_products store ps

/-- The store after a sequence of serialized operations. -/
def applyOps (store : Store) : List Op → Store
  | [] => store
  | op :: rest => applyOps (applyOp store op) rest

/-- An operation that never inserts a negative stock: any decrement, increase
or delete, and a creation whose entries all carry non-negative stock. -/
def safeOp : Op → Prop
  | .create ps => ∀ p ∈ ps, 0 ≤ p.stock
  | _ => True

instance (op : Op) : Decidable (safeOp op) := by
  cases op <;> simp only [safeOp] <;> infer_instance

/-- Events carried out of the decrement loop. -/
def eventsOf : LoopOut → List Event
  | .ok _ _ _ evs => evs
  | .err _ evs => evs

theorem lookupStock_writeStock_self (store : Store) (sku : String) (s v : Int)
    (h : lookupStock store sku = some s) :
    lookupStock (writeStock store sku v) sku = some v := by
  induction store with
  | nil => simp [lookupStock] at h
  | cons p rest ih =>
    by_cases hk : p.1 = sku
    · simp [lookupStock, writeStock, hk]
    · simp [lookupStock, writeStock, hk] at h ⊢
      exact ih h

theorem lookupStock_deleteSku_self (store : Store) (sku : String) :
    lookupStock (deleteSku store sku) sku = none := by
  induction store with
  | nil => rfl
  | cons p rest ih =>
    by_cases hk : p.1 = sku
    · simpa [deleteSku, List.filter, hk] using ih
    · simpa [deleteSku, List.filter, hk, lookupStock] using ih

theorem nonneg_writeStock (store : Store) (sku : String) (v : Int)
    (hs : nonneg store) (hv : 0 ≤ v) : nonneg (writeStock store sku v) := by
  induction store with
  | nil => intro p hp; simp [writeStock] at hp
  | cons q rest ih =>
    intro p hp
    simp only [writeStock, List.mem_cons] at hp
    rcases hp with hp | hp
    · subst hp
      by_cases hk : q.1 = sku
      · simpa [hk] using hv
      · simpa [hk] using hs q (by simp)
    · exact ih (fun r hr => hs r (by simp [hr])) p hp

theorem nonneg_deleteSku (store : Store) (sku : String)
    (hs : nonneg store) : nonneg (deleteSku store sku) := by
  intro p hp
  exact hs p (List.mem_of_mem_filter hp)

theorem nonneg_create_products (store : Store) (ps : List ProductCreate)
    (hs : nonneg store) (hp : ∀ p ∈ ps, 0 ≤ p.stock) :
    nonneg (create_products store ps) := by
  induction ps generalizing store with
  | nil => simpa [create_products] using hs
  | cons p rest ih =>
    simp only [create_products]
    refine ih _ ?_ (fun q hq => hp q (by simp [hq]))
    intro q hq
    rcases List.mem_append.mp hq with hq | hq
    · exact hs q hq
    · simp only [List.mem_singleton] at hq
      subst hq
      exact hp p (by simp)

theorem runItems_ok_nonneg (items : List Item) (store : Store)
    (prods : List Product) (shipped : List (String × Int)) (evs : List Event)
    (store₁ : Store) (prods₁ : List Product) (shipped₁ : List (String × Int))
    (evs₁ : List Event) (hs : nonneg store)
    (h : runItems store items prods shipped evs = .ok store₁ prods₁ shipped₁ evs₁) :
    nonneg store₁ := by
  induction items generalizing store prods shipped evs with
  | nil =>
    simp only [runItems, LoopOut.ok.injEq] at h
    exact h.1 ▸ hs
  | cons item rest ih =>
    simp only [runItems] at h
    cases hl : lookupStock store item.productCode with
    | none => simp [hl] at h
    | some stock =>
      simp only [hl] at h
      by_cases hq : ensure_valid_quantity item.quantity
      · simp only [hq, if_true] at h
        by_cases hlt : stock < item.quantity
        · simp [hlt] at h
        · simp only [hlt, if_false] at h
          exact ih _ _ _ _
            (nonneg_writeStock store item.productCode (stock - item.quantity) hs
              (by omega)) h
      · simp [hq] at h

theorem runItems_ok_shipped (items : List Item) (store : Store)
    (prods : List Product) (shipped : List (String × Int)) (evs : List Event)
    (store₁ : Store) (prods₁ : List Product) (shipped₁ : List (String × Int))
    (evs₁ : List Event)
    (h : runItems store items prods shipped evs = .ok store₁ prods₁ shipped₁ evs₁) :
    shipped₁ = shipped ++ items.map (fun i => (i.productCode, i.quantity)) := by
  induction items generalizing store prods shipped evs with
  | nil =>
    simp only [runItems, LoopOut.ok.injEq] at h
    simp [h.2.2.1.symm]
  | cons item rest ih =>
    simp only [runItems] at h
    cases hl : lookupStock store item.productCode with
    | none => simp [hl] at h
    | some stock =>
      simp only [hl] at h
      by_cases hq : ensure_valid_quantity item.quantity
      · simp only [hq, if_true] at h
        by_cases hlt : stock < item.quantity
        · simp [hlt] at h
        · simp only [hlt, if_false] at h
          simpa using ih _ _ _ _ h
      · simp [hq] at h

theorem runItems_events (items : List Item) (store : Store)
    (prods : List Product) (shipped : List (String × Int)) (evs : List Event)
    (ev : Event) (h : ev ∈ eventsOf (runItems store items prods shipped evs)) :
    ev ∈ evs ∨ (∃ sku, ev = .read sku) ∨ (∃ sku v, ev = .write sku v ∧ 0 ≤ v) := by
  induction items generalizing store prods shipped evs with
  | nil =>
    simp only [runItems, eventsOf] at h
    exact Or.inl h
  | cons item rest ih =>
    simp only [runItems, List.append_eq] at h
    cases hl : lookupStock store item.productCode with
    | none =>
      simp only [hl, eventsOf, List.append_eq, List.mem_append, List.mem_singleton] at h
      rcases h with h | h
      · exact Or.inl h
      · exact Or.inr (Or.inl ⟨item.productCode, h⟩)
    | some stock =>
      simp only [hl] at h
      by_cases hq : ensure_valid_quantity item.quantity
      · simp only [hq, if_true] at h
        by_cases hlt : stock < item.quantity
        · simp only [hlt, if_true, eventsOf, List.append_eq, List.mem_append, List.mem_singleton] at h
          rcases h with h | h
          · exact Or.inl h
          · exact Or.inr (Or.inl ⟨item.productCode, h⟩)
        · simp only [hlt, if_false] at h
          rcases ih _ _ _ _ h with h' | h' | h'
          · rcases List.mem_append.mp h' with h'' | h''
            · rcases List.mem_append.mp h'' with h3 | h3
              · exact Or.inl h3
              · simp only [List.mem_singleton] at h3
                exact Or.inr (Or.inl ⟨item.productCode, h3⟩)
            · simp only [List.mem_singleton] at h''
              exact Or.inr (Or.inr ⟨item.productCode, stock - item.quantity, h'', by omega⟩)
          · exact Or.inr (Or.inl h')
          · exact Or.inr (Or.inr h')
      · rw [if_neg hq] at h
        simp only [eventsOf, List.append_eq, List.mem_append, List.mem_singleton] at h
        rcases h with h | h
        · exact Or.inl h
        · exact Or.inr (Or.inl ⟨item.productCode, h⟩)

theorem notifyCount_runItems (items : List Item) (store : Store) :
    notifyCount (eventsOf (runItems store items [] [] [])) = 0 := by
  rw [notifyCount, List.countP_eq_zero]
  intro ev hev
  rcases runItems_events items store [] [] [] ev hev with h | h | h
  · simp at h
  · rcases h with ⟨sku, rfl⟩
    simp
  · rcases h with ⟨sku, v, rfl, _⟩
    simp

theorem no_notify_runItems (items : List Item) (store : Store) :
    hasNotify (eventsOf (runItems store items [] [] [])) = false := by
  rw [hasNotify, List.any_eq_false]
  intro ev hev
  rcases runItems_events items store [] [] [] ev hev with h | h | h
  · simp at h
  · rcases h with ⟨sku, rfl⟩
    simp
  · rcases h with ⟨sku, v, rfl, _⟩
    simp

theorem no_commit_runItems (items : List Item) (store : Store) :
    Event.commit ∉ eventsOf (runItems store items [] [] []) := by
  intro hev
  rcases runItems_events items store [] [] [] Event.commit hev with h | h | h
  · simp at h
  · rcases h with ⟨sku, h⟩
    exact Event.noConfusion h
  · rcases h with ⟨sku, v, h, _⟩
    exact Event.noConfusion h

theorem nonneg_lookupStock (store : Store) (sku : String) (s : Int)
    (hs : nonneg store) (h : lookupStock store sku = some s) : 0 ≤ s := by
  induction store with
  | nil => simp [lookupStock] at h
  | cons p rest ih =>
    by_cases hk : p.1 = sku
    · simp only [lookupStock, hk, if_true, Option.some.injEq] at h
      exact h ▸ hs p (by simp)
    · simp only [lookupStock, hk, if_false] at h
      exact ih (fun q hq => hs q (by simp [hq])) h

theorem nonneg_decrease_stock (store : Store) (user : UserDict)
    (items : List Item) (nb : NotifyBehavior) (hs : nonneg store) :
    nonneg (decrease_stock store user items nb).2.1 := by
  unfold decrease_stock
  cases hrun : runItems store items [] [] [] with
  | err e evs => simpa using hs
  | ok store₁ prods shipped evs =>
    have h₁ : nonneg store₁ := runItems_ok_nonneg items store [] [] [] _ _ _ _ hs hrun
    by_cases hrole : "admin" ∈ user.role.getD []
    · simpa [hrole] using h₁
    · cases htok : user.token with
      | none => simpa [hrole, htok] using hs
      | some tok =>
        cases hsend : send_shipping_confirmation nb with
        | raised => simpa [hrole, htok, hsend] using hs
        | loggedSuccess => simpa [hrole, htok, hsend] using h₁
        | loggedFailure => simpa [hrole, htok, hsend] using h₁

theorem nonneg_increase_stock (store : Store) (req : Item) (hs : nonneg store) :
    nonneg (increase_stock store req).2 := by
  unfold increase_stock
  cases hl : lookupStock store req.productCode with
  | none => simpa using hs
  | some stock =>
    by_cases hq : ensure_valid_quantity req.quantity
    · have hq' : 0 < req.quantity := by simpa [ensure_valid_quantity] using hq
      have hstock : 0 ≤ stock := nonneg_lookupStock store req.productCode stock hs hl
      simpa [hq] using
        nonneg_writeStock store req.productCode (stock + req.quantity) hs (by omega)
    · simpa [hq] using hs

theorem nonneg_delLoop (reqs : List String) (store : Store) (msgs : List String)
    (hs : nonneg store) : nonneg (delLoop store reqs msgs).2 := by
  induction reqs generalizing store msgs with
  | nil => simpa [delLoop] using hs
  | cons sku rest ih =>
    unfold delLoop
    cases hl : lookupStock store sku with
    | none => simpa using hs
    | some s => exact ih _ _ (nonneg_deleteSku store sku hs)

theorem nonneg_applyOp (store : Store) (op : Op) (hs : nonneg store)
    (hop : safeOp op) : nonneg (applyOp store op) := by
  cases op with
  | dec user items nb => exact nonneg_decrease_stock store user items nb hs
  | inc req => exact nonneg_increase_stock store req hs
  | del reqs => exact nonneg_delLoop reqs store [] hs
  | create ps => exact nonneg_create_products store ps hs hop

theorem nonneg_applyOps (ops : List Op) (store : Store) (hs : nonneg store)
    (hops : ∀ op ∈ ops, safeOp op) : nonneg (applyOps store ops) := by
  induction ops generalizing store with
  | nil => simpa [applyOps] using hs
  | cons op rest ih =>
    exact ih _ (nonneg_applyOp store op hs (hops op (by simp)))
      (fun o ho => hops o (by simp [ho]))

theorem decrease_stock_trace (store : Store) (user : UserDict)
    (items : List Item) (nb : NotifyBehavior) :
    ∃ tail, (decrease_stock store user items nb).2.2
        = eventsOf (runItems store items [] [] []) ++ tail ∧
      ∀ sku v, Event.write sku v ∉ tail := by
  unfold decrease_stock
  cases hrun : runItems store items [] [] [] with
  | err e evs =>
    refine ⟨[.rollback], by simp [eventsOf], ?_⟩
    intro sku v hmem
    simp at hmem
  | ok store₁ prods shipped evs =>
    by_cases hrole : "admin" ∈ user.role.getD []
    · refine ⟨[.commit], by simp [hrole, eventsOf], ?_⟩
      intro sku v hmem
      simp at hmem
    · cases htok : user.token with
      | none =>
        refine ⟨[.rollback], by simp [hrole, eventsOf], ?_⟩
        intro sku v hmem
        simp at hmem
      | some tok =>
        cases hsend : send_shipping_confirmation nb with
        | raised =>
          refine ⟨[.notify tok shipped, .rollback], by simp [hrole, hsend, eventsOf], ?_⟩
          intro sku v hmem
          simp at hmem
        | loggedSuccess =>
          refine ⟨[.notify tok shipped, .commit], by simp [hrole, hsend, eventsOf], ?_⟩
          intro sku v hmem
          simp at hmem
        | loggedFailure =>
          refine ⟨[.notify tok shipped, .commit], by simp [hrole, hsend, eventsOf], ?_⟩
          intro sku v hmem
          simp at hmem

/-- C1: a decrement batch in which some entry fails validation (product not
found, invalid quantity, or insufficient stock) leaves the persisted store
exactly as it was — the transaction rolls back, including the writes of
entries processed earlier in the same batch. -/
theorem C1_failed_batch_rolls_back (store : Store) (user : UserDict)
    (items : List Item) (nb : NotifyBehavior) (e : DecError) (evs : List Event)
    (h : runItems store items [] [] [] = .err e evs) :
    decrease_stock store user items nb
      = (.httpError (statusOf e) e, store, evs ++ [.rollback]) := by
  simp [decrease_stock, h]

/-- Witness for C1: stock A = 1, B = 7; the batch [(B,2),(A,5)] decrements B
in-transaction, then fails on A with insufficient stock; the persisted store
is unchanged, B included. -/
theorem C1_failed_batch_rolls_back_witness :
    runItems [("A", 1), ("B", 7)] [⟨"B", 2⟩, ⟨"A", 5⟩] [] [] []
      = .err (.insufficientStock "A" 5 1) [.read "B", .write "B" 5, .read "A"] ∧
    decrease_stock [("A", 1), ("B", 7)] ⟨some "u", some "u@x", some [], none⟩
        [⟨"B", 2⟩, ⟨"A", 5⟩] (.status 200)
      = (.httpError 400 (.insufficientStock "A" 5 1), [("A", 1), ("B", 7)],
         [.read "B", .write "B" 5, .read "A", .rollback]) :=
  ⟨by decide,
   C1_failed_batch_rolls_back [("A", 1), ("B", 7)] ⟨some "u", some "u@x", some [], none⟩
     [⟨"B", 2⟩, ⟨"A", 5⟩] (.status 200) (.insufficientStock "A" 5 1)
     [.read "B", .write "B" 5, .read "A"] (by decide)⟩

/-- C2 counterexample: with a user dict that does carry a `token` key, a
valid one-item batch against stock A = 10 shows the claim false as stated:
with a 200 response the notifier invocation appears in the trace strictly
before the commit (it runs inside the open unit of work), and with a raised
transport error the caller sees the exception and the decrement is rolled
back rather than remaining committed. -/
theorem C2_notify_after_commit_counterexample :
    decrease_stock [("A", 10)] ⟨some "u", some "u@x", some [], some "tok"⟩
        [⟨"A", 4⟩] .raiseExc
      = (.networkError, [("A", 10)],
         [.read "A", .write "A" 6, .notify "tok" [("A", 4)], .rollback]) ∧
    decrease_stock [("A", 10)] ⟨some "u", some "u@x", some [], some "tok"⟩
        [⟨"A", 4⟩] (.status 200)
      = (.ok [⟨"A", 6⟩], [("A", 6)],
         [.read "A", .write "A" 6, .notify "tok" [("A", 4)], .commit]) := by
  decide

/-- C2 amended: when a validated batch reaches the notification step (the
requester is non-elevated and the dict carries a `token` key), the notifier
is invoked inside the open unit of work, before the commit: any HTTP response
status (success or not) is absorbed — the batch commits and the response
status is never surfaced — but a raised transport error propagates to the
caller and rolls the whole decrement back. -/
theorem C2_notify_inside_transaction (store : Store) (user : UserDict)
    (items : List Item) (store₁ : Store) (prods : List Product)
    (shipped : List (String × Int)) (evs : List Event) (tok : String)
    (hrun : runItems store items [] [] [] = .ok store₁ prods shipped evs)
    (hrole : "admin" ∉ user.role.getD [])
    (htok : user.token = some tok) :
    (∀ n, decrease_stock store user items (.status n)
        = (.ok prods, store₁, evs ++ [.notify tok shipped, .commit])) ∧
    decrease_stock store user items .raiseExc
        = (.networkError, store, evs ++ [.notify tok shipped, .rollback]) := by
  constructor
  · intro n
    by_cases h200 : n = 200 <;>
      simp [decrease_stock, hrun, hrole, htok, send_shipping_confirmation, h200]
  · simp [decrease_stock, hrun, hrole, htok, send_shipping_confirmation]

/-- Witness for C2 amended: a non-200 notifier response does not fail the
committed batch. -/
theorem C2_notify_inside_transaction_witness :
    decrease_stock [("A", 10)] ⟨some "u", some "u@x", some ["customer"], some "tok"⟩
        [⟨"A", 4⟩] (.status 500)
      = (.ok [⟨"A", 6⟩], [("A", 6)],
         [.read "A", .write "A" 6, .notify "tok" [("A", 4)], .commit]) :=
  (C2_notify_inside_transaction [("A", 10)]
      ⟨some "u", some "u@x", some ["customer"], some "tok"⟩ [⟨"A", 4⟩]
      [("A", 6)] [⟨"A", 6⟩] [("A", 4)] [.read "A", .write "A" 6] "tok"
      (by decide) (by decide) rfl).1 500

/-- C3: the identity dict built by `get_current_user` has exactly the keys
`user_id`, `email` and `role` — in particular no `token` key — so for a
non-elevated requester whose batch passes every validation, `decrease_stock`
hits `user["token"]` inside the open transaction: a `KeyError` is raised, the
unit of work rolls back (persisted stock unchanged), and neither a commit nor
a notifier invocation ever happens for a non-elevated batch. -/
theorem C3_token_keyerror (j : JwtOutcome) (u : UserDict) (store : Store)
    (items : List Item) (nb : NotifyBehavior) (store₁ : Store)
    (prods : List Product) (shipped : List (String × Int)) (evs : List Event)
    (hu : get_current_user j = .okUser u)
    (hrole : "admin" ∉ u.role.getD [])
    (hrun : runItems store items [] [] [] = .ok store₁ prods shipped evs) :
    u.user_id ≠ none ∧ u.email ≠ none ∧ u.role ≠ none ∧ u.token = none ∧
    decrease_stock store u items nb = (.keyError "token", store, evs ++ [.rollback]) ∧
    hasNotify (evs ++ [.rollback]) = false ∧
    Event.commit ∉ evs ++ [.rollback] := by
  have hshape : ∃ uid em r, u = ⟨some uid, some em, some r, none⟩ := by
    cases j with
    | expired => simp [get_current_user] at hu
    | invalid => simp [get_current_user] at hu
    | decoded p =>
      cases hsub : p.sub with
      | none => simp [get_current_user, hsub] at hu
      | some uid =>
        cases hem : p.email with
        | none => simp [get_current_user, hsub, hem] at hu
        | some em =>
          simp only [get_current_user, hsub, hem, AuthResult.okUser.injEq] at hu
          exact ⟨uid, em, p.role.getD [], hu.symm⟩
  rcases hshape with ⟨uid, em, r, rfl⟩
  have hr : "admin" ∉ r := by simpa using hrole
  refine ⟨by simp, by simp, by simp, rfl, ?_, ?_, ?_⟩
  · simp [decrease_stock, hrun, hr]
  · rw [hasNotify, List.any_eq_false]
    intro ev hev
    rcases List.mem_append.mp hev with hev | hev
    · have hev' : ev ∈ eventsOf (runItems store items [] [] []) := by
        rw [hrun]; exact hev
      rcases runItems_events items store [] [] [] ev hev' with h | h | h
      · simp at h
      · rcases h with ⟨sku, rfl⟩
        simp
      · rcases h with ⟨sku, v, rfl, _⟩
        simp
    · simp only [List.mem_singleton] at hev
      subst hev
      simp
  · intro hmem
    rcases List.mem_append.mp hmem with hev | hev
    · have hev' : Event.commit ∈ eventsOf (runItems store items [] [] []) := by
        rw [hrun]; exact hev
      exact no_commit_runItems items store hev'
    · simp at hev

/-- Witness for C3: a customer-role identity from a decoded JWT, with a fully
valid one-item batch, yields the `KeyError` rollback. -/
theorem C3_token_keyerror_witness :
    get_current_user (.decoded ⟨some "u1", some "u1@x", some ["customer"]⟩)
      = .okUser ⟨some "u1", some "u1@x", some ["customer"], none⟩ ∧
    decrease_stock [("A", 10)] ⟨some "u1", some "u1@x", some ["customer"], none⟩
        [⟨"A", 4⟩] (.status 200)
      = (.keyError "token", [("A", 10)], [.read "A", .write "A" 6, .rollback]) :=
  ⟨by decide,
   (C3_token_keyerror (.decoded ⟨some "u1", some "u1@x", some ["customer"]⟩)
      ⟨some "u1", some "u1@x", some ["customer"], none⟩ [("A", 10)] [⟨"A", 4⟩]
      (.status 200) [("A", 6)] [⟨"A", 6⟩] [("A", 4)] [.read "A", .write "A" 6]
      (by decide) (by decide) (by decide)).2.2.2.2.1⟩

theorem hasNotify_append (l₁ l₂ : List Event) :
    hasNotify (l₁ ++ l₂) = (hasNotify l₁ || hasNotify l₂) := by
  simp [hasNotify, List.any_append]

theorem notifyCount_append (l₁ l₂ : List Event) :
    notifyCount (l₁ ++ l₂) = notifyCount l₁ + notifyCount l₂ := by
  simp [notifyCount, List.countP_append]

theorem hasNotify_runItems_ok (items : List Item) (store store₁ : Store)
    (prods : List Product) (shipped : List (String × Int)) (evs : List Event)
    (hrun : runItems store items [] [] [] = .ok store₁ prods shipped evs) :
    hasNotify evs = false := by
  have h := no_notify_runItems items store
  rw [hrun] at h
  simpa [eventsOf] using h

theorem hasNotify_runItems_err (items : List Item) (store : Store)
    (e : DecError) (evs : List Event)
    (hrun : runItems store items [] [] [] = .err e evs) :
    hasNotify evs = false := by
  have h := no_notify_runItems items store
  rw [hrun] at h
  simpa [eventsOf] using h

theorem notifyCount_runItems_ok (items : List Item) (store store₁ : Store)
    (prods : List Product) (shipped : List (String × Int)) (evs : List Event)
    (hrun : runItems store items [] [] [] = .ok store₁ prods shipped evs) :
    notifyCount evs = 0 := by
  have h := notifyCount_runItems items store
  rw [hrun] at h
  simpa [eventsOf] using h

/-- C4 counterexample: the claim's final conjunct — "the Notifier is never
invoked for a failed batch" — is false: with a token-carrying non-elevated
dict and a notifier transport error, the trace contains a notifier
invocation although the batch fails (500 to the caller, stock rolled back). -/
theorem C4_notify_on_failed_batch_counterexample :
    decrease_stock [("A", 10)] ⟨some "u", some "u@x", some [], some "tok"⟩
        [⟨"A", 4⟩] .raiseExc
      = (.networkError, [("A", 10)],
         [.read "A", .write "A" 6, .notify "tok" [("A", 4)], .rollback]) ∧
    hasNotify [Event.read "A", .write "A" 6, .notify "tok" [("A", 4)], .rollback]
      = true := by
  decide

/-- C4 amended: an elevated (admin-role) requester's batch never invokes the
notifier, successful or not; a batch failing validation never invokes the
notifier; and when a validated batch of a non-elevated requester whose dict
carries a `token` key runs, the notifier is invoked exactly once, with
exactly the request's (productCode, quantity) pairs — but if the notifier
call itself raises, it has been invoked and the batch nevertheless fails. -/
theorem C4_notifier_invocation :
    (∀ store user items nb, "admin" ∈ user.role.getD [] →
        hasNotify (decrease_stock store user items nb).2.2 = false) ∧
    (∀ store user items nb e evs, runItems store items [] [] [] = .err e evs →
        hasNotify (decrease_stock store user items nb).2.2 = false) ∧
    (∀ store user items nb store₁ prods shipped evs tok,
        runItems store items [] [] [] = .ok store₁ prods shipped evs →
        "admin" ∉ user.role.getD [] → user.token = some tok →
        notifyCount (decrease_stock store user items nb).2.2 = 1 ∧
        Event.notify tok (items.map fun i => (i.productCode, i.quantity))
          ∈ (decrease_stock store user items nb).2.2) := by
  refine ⟨?_, ?_, ?_⟩
  · intro store user items nb hrole
    cases hrun : runItems store items [] [] [] with
    | err e evs =>
      have hn := hasNotify_runItems_err items store e evs hrun
      have heq : decrease_stock store user items nb
          = (.httpError (statusOf e) e, store, evs ++ [.rollback]) := by
        simp [decrease_stock, hrun]
      rw [heq, hasNotify_append, hn]
      decide
    | ok store₁ prods shipped evs =>
      have hn := hasNotify_runItems_ok items store store₁ prods shipped evs hrun
      have heq : decrease_stock store user items nb
          = (.ok prods, store₁, evs ++ [.commit]) := by
        simp [decrease_stock, hrun, hrole]
      rw [heq, hasNotify_append, hn]
      decide
  · intro store user items nb e evs hrun
    have hn := hasNotify_runItems_err items store e evs hrun
    have heq : decrease_stock store user items nb
        = (.httpError (statusOf e) e, store, evs ++ [.rollback]) := by
      simp [decrease_stock, hrun]
    rw [heq, hasNotify_append, hn]
    decide
  · intro store user items nb store₁ prods shipped evs tok hrun hrole htok
    have hc := notifyCount_runItems_ok items store store₁ prods shipped evs hrun
    have hship : shipped = items.map fun i => (i.productCode, i.quantity) := by
      simpa using runItems_ok_shipped items store [] [] [] _ _ _ _ hrun
    have htrace : ∃ last, (decrease_stock store user items nb).2.2
        = evs ++ [Event.notify tok shipped, last] ∧ notifyCount [last] = 0 := by
      cases nb with
      | raiseExc =>
        refine ⟨.rollback, ?_, by decide⟩
        simp [decrease_stock, hrun, hrole, htok, send_shipping_confirmation]
      | status n =>
        refine ⟨.commit, ?_, by decide⟩
        by_cases h200 : n = 200 <;>
          simp [decrease_stock, hrun, hrole, htok, send_shipping_confirmation, h200]
    rcases htrace with ⟨last, htr, hlast⟩
    rw [htr]
    constructor
    · have h1 : notifyCount [Event.notify tok shipped, last]
          = notifyCount [Event.notify tok shipped] + notifyCount [last] := by
        have := notifyCount_append [Event.notify tok shipped] [last]
        simpa using this
      rw [notifyCount_append, hc, h1, hlast]
      simp [notifyCount, List.countP_cons]
    · rw [hship]
      simp

/-- Witness for C4 amended: an admin-role success produces no notifier
invocation; the same batch with a customer-role, token-carrying dict
produces exactly one, carrying the request pairs. -/
theorem C4_notifier_invocation_witness :
    hasNotify (decrease_stock [("A", 10)] ⟨some "a", some "a@x", some ["admin"], none⟩
        [⟨"A", 4⟩] (.status 200)).2.2 = false ∧
    notifyCount (decrease_stock [("A", 10)] ⟨some "u", some "u@x", some ["customer"], some "tok"⟩
        [⟨"A", 4⟩] (.status 200)).2.2 = 1 :=
  ⟨C4_notifier_invocation.1 [("A", 10)] ⟨some "a", some "a@x", some ["admin"], none⟩
      [⟨"A", 4⟩] (.status 200) (by decide),
   (C4_notifier_invocation.2.2 [("A", 10)] ⟨some "u", some "u@x", some ["customer"], some "tok"⟩
      [⟨"A", 4⟩] (.status 200) [("A", 6)] [⟨"A", 6⟩] [("A", 4)]
      [.read "A", .write "A" 6] "tok" (by decide) (by decide) rfl).1⟩

/-- C5: when a batch names the same SKU twice, the second occurrence's stock
check runs against the running in-transaction total left by the first, not
the pre-batch value: for stock(sku) = s, batch [(sku,q1),(sku,q2)] with a
valid affordable q1 and s - q1 < q2 fails on the second entry with
insufficient stock at available = s - q1, and the rollback leaves the store
untouched. In particular [(X,3),(X,3)] against stock(X) = 5 fails with
available = 2 and leaves stock(X) = 5. -/
theorem C5_duplicate_sku_running_total :
    (∀ (store : Store) (user : UserDict) (nb : NotifyBehavior) (sku : String)
        (q₁ q₂ s : Int), lookupStock store sku = some s → 0 < q₁ → ¬s < q₁ →
        0 < q₂ → s - q₁ < q₂ →
        decrease_stock store user [⟨sku, q₁⟩, ⟨sku, q₂⟩] nb
          = (.httpError 400 (.insufficientStock sku q₂ (s - q₁)), store,
             [.read sku, .write sku (s - q₁), .read sku, .rollback])) ∧
    (∀ (user : UserDict) (nb : NotifyBehavior),
        decrease_stock [("X", 5)] user [⟨"X", 3⟩, ⟨"X", 3⟩] nb
          = (.httpError 400 (.insufficientStock "X" 3 2), [("X", 5)],
             [.read "X", .write "X" 2, .read "X", .rollback])) := by
  have hgen : ∀ (store : Store) (user : UserDict) (nb : NotifyBehavior)
      (sku : String) (q₁ q₂ s : Int), lookupStock store sku = some s →
      0 < q₁ → ¬s < q₁ → 0 < q₂ → s - q₁ < q₂ →
      decrease_stock store user [⟨sku, q₁⟩, ⟨sku, q₂⟩] nb
        = (.httpError 400 (.insufficientStock sku q₂ (s - q₁)), store,
           [.read sku, .write sku (s - q₁), .read sku, .rollback]) := by
    intro store user nb sku q₁ q₂ s hl hq₁ hlt₁ hq₂ hlt₂
    have hw := lookupStock_writeStock_self store sku s (s - q₁) hl
    simp [decrease_stock, runItems, hl, hw, ensure_valid_quantity,
      hq₁, hq₂, hlt₁, hlt₂, statusOf]
  refine ⟨hgen, ?_⟩
  intro user nb
  have h := hgen [("X", 5)] user nb "X" 3 3 5 (by decide) (by decide)
    (by decide) (by decide) (by decide)
  exact h

/-- Witness for C5: the spec's own instance, stock(X) = 5, batch
[(X,3),(X,3)]. -/
theorem C5_duplicate_sku_running_total_witness :
    decrease_stock [("X", 5)] ⟨some "u", some "u@x", some [], none⟩
        [⟨"X", 3⟩, ⟨"X", 3⟩] (.status 200)
      = (.httpError 400 (.insufficientStock "X" 3 2), [("X", 5)],
         [.read "X", .write "X" 2, .read "X", .rollback]) := by
  exact C5_duplicate_sku_running_total.1 [("X", 5)]
    ⟨some "u", some "u@x", some [], none⟩ (.status 200) "X" 3 3 5
    (by decide) (by decide) (by decide) (by decide) (by decide)

/-- C6: the claim says every batch whose entries all pass the (running)
stock check commits `new_stock = current_stock - quantity` per entry and
returns the updated products in batch order. The code is a slip: at the
spec's own example (stock(A)=10, stock(B)=5, batch [(A,4),(B,5)]) an
identity produced by `get_current_user` (which never carries a `token` key)
makes `decrease_stock` raise `KeyError("token")` and roll back, so no
non-elevated batch ever commits; with an admin-role identity (where the
`user["token"]` line is skipped) the very same batch commits
stock(A)=6, stock(B)=0 and returns the products in order — confirming the
arithmetic is as claimed and the failure is exactly the missing key. -/
theorem C6_commit_blocked_by_token_keyerror :
    get_current_user (.decoded ⟨some "u1", some "u1@x", some []⟩)
      = .okUser ⟨some "u1", some "u1@x", some [], none⟩ ∧
    decrease_stock [("A", 10), ("B", 5)] ⟨some "u1", some "u1@x", some [], none⟩
        [⟨"A", 4⟩, ⟨"B", 5⟩] (.status 200)
      = (.keyError "token", [("A", 10), ("B", 5)],
         [.read "A", .write "A" 6, .read "B", .write "B" 0, .rollback]) ∧
    decrease_stock [("A", 10), ("B", 5)] ⟨some "a", some "a@x", some ["admin"], none⟩
        [⟨"A", 4⟩, ⟨"B", 5⟩] (.status 200)
      = (.ok [⟨"A", 6⟩, ⟨"B", 0⟩], [("A", 6), ("B", 0)],
         [.read "A", .write "A" 6, .read "B", .write "B" 0, .commit]) := by
  decide

/-- C7 counterexample: the claim that a non-positive quantity is rejected
"before touching the store: neither a store read nor a store write for that
entry occurs" is false — the code runs `SELECT ... FOR UPDATE` on the row
first and validates the quantity only afterwards, so the trace of the batch
[(A,0)] contains the read of A. -/
theorem C7_read_before_validation_counterexample :
    decrease_stock [("A", 10)] ⟨some "u", some "u@x", some [], none⟩
        [⟨"A", 0⟩] (.status 200)
      = (.httpError 400 (.invalidQuantity "A" 0), [("A", 10)],
         [.read "A", .rollback]) ∧
    Event.read "A" ∈ (decrease_stock [("A", 10)] ⟨some "u", some "u@x", some [], none⟩
        [⟨"A", 0⟩] (.status 200)).2.2 := by
  decide

/-- C7 amended: an entry with quantity ≤ 0 on an existing product is
rejected with InvalidQuantity (HTTP 400) after that product's row has been
read and locked but before any store write: whenever the loop reaches such
an entry it fails immediately after the read, no write for that entry or
any later entry happens, and when the entry heads the batch the whole
request rolls back with the store untouched and a trace of exactly the one
read. (When the product does not exist, NotFound takes precedence.) -/
theorem C7_invalid_quantity_rejected_before_write :
    (∀ (store : Store) (prods : List Product) (shipped : List (String × Int))
        (evs : List Event) (sku : String) (q : Int) (rest : List Item) (s : Int),
        lookupStock store sku = some s → ¬0 < q →
        runItems store (⟨sku, q⟩ :: rest) prods shipped evs
          = .err (.invalidQuantity sku q) (evs ++ [.read sku])) ∧
    (∀ (store : Store) (user : UserDict) (nb : NotifyBehavior) (sku : String)
        (q : Int) (rest : List Item) (s : Int),
        lookupStock store sku = some s → ¬0 < q →
        decrease_stock store user (⟨sku, q⟩ :: rest) nb
          = (.httpError 400 (.invalidQuantity sku q), store,
             [.read sku, .rollback])) := by
  constructor
  · intro store prods shipped evs sku q rest s hl hq
    simp [runItems, hl, ensure_valid_quantity, hq]
  · intro store user nb sku q rest s hl hq
    simp [decrease_stock, runItems, hl, ensure_valid_quantity, hq, statusOf]

/-- Witness for C7 amended: quantity 0 on existing stock A = 10, and also a
negative quantity mid-batch. -/
theorem C7_invalid_quantity_rejected_before_write_witness :
    decrease_stock [("A", 10)] ⟨some "u", some "u@x", some [], none⟩
        [⟨"A", 0⟩] (.status 200)
      = (.httpError 400 (.invalidQuantity "A" 0), [("A", 10)],
         [.read "A", .rollback]) :=
  C7_invalid_quantity_rejected_before_write.2 [("A", 10)]
    ⟨some "u", some "u@x", some [], none⟩ (.status 200) "A" 0 [] 10
    (by decide) (by decide)

/-- C8: stock stays non-negative. Every endpoint preserves the invariant
"all persisted stocks are ≥ 0": a decrement (whatever its outcome), an
increase, a delete, a create whose entries carry non-negative stock, and any
serialized sequence of such operations — the row locks of the decrement
transaction totally order units of work touching a SKU, so a concurrent
history is such a sequence. Moreover the decrement loop never even writes a
negative value: every write event in a decrement trace carries a
non-negative new stock, because the write is guarded by the
`stock < quantity` check. -/
theorem C8_stock_never_negative :
    (∀ (store : Store) (user : UserDict) (items : List Item) (nb : NotifyBehavior),
        nonneg store → nonneg (decrease_stock store user items nb).2.1) ∧
    (∀ (store : Store) (req : Item),
        nonneg store → nonneg (increase_stock store req).2) ∧
    (∀ (store : Store) (reqs : List String),
        nonneg store → nonneg (delete_products store reqs).2) ∧
    (∀ (store : Store) (ps : List ProductCreate),
        nonneg store → (∀ p ∈ ps, 0 ≤ p.stock) → nonneg (create_products store ps)) ∧
    (∀ (store : Store) (ops : List Op),
        nonneg store → (∀ op ∈ ops, safeOp op) → nonneg (applyOps store ops)) ∧
    (∀ (store : Store) (user : UserDict) (items : List Item) (nb : NotifyBehavior)
        (sku : String) (v : Int),
        Event.write sku v ∈ (decrease_stock store user items nb).2.2 → 0 ≤ v) := by
  refine ⟨fun store user items nb hs => nonneg_decrease_stock store user items nb hs,
    fun store req hs => nonneg_increase_stock store req hs,
    fun store reqs hs => nonneg_delLoop reqs store [] hs,
    fun store ps hs hp => nonneg_create_products store ps hs hp,
    fun store ops hs hops => nonneg_applyOps ops store hs hops,
    ?_⟩
  intro store user items nb sku v hmem
  rcases decrease_stock_trace store user items nb with ⟨tail, htr, htail⟩
  rw [htr] at hmem
  rcases List.mem_append.mp hmem with hmem | hmem
  · rcases runItems_events items store [] [] [] (Event.write sku v) hmem
      with h | h | h
    · simp at h
    · rcases h with ⟨sku', h⟩
      exact Event.noConfusion h
    · rcases h with ⟨sku', v', h, hv⟩
      cases h
      exact hv
  · exact absurd hmem (htail sku v)

/-- Witness for C8: a non-negative store stays non-negative across a
serialized admin decrement, a customer decrement (which rolls back on the
missing token key), an increase, a create and a delete. -/
theorem C8_stock_never_negative_witness :
    nonneg [("A", 5), ("B", 0)] ∧
    nonneg (applyOps [("A", 5), ("B", 0)]
      [.dec ⟨some "a", some "a@x", some ["admin"], none⟩ [⟨"A", 5⟩] (.status 200),
       .dec ⟨some "u", some "u@x", some [], none⟩ [⟨"B", 0⟩] (.status 200),
       .inc ⟨"B", 3⟩,
       .create [⟨"C", 0⟩],
       .del ["A"]]) :=
  ⟨by decide,
   C8_stock_never_negative.2.2.2.2.1 [("A", 5), ("B", 0)]
     [.dec ⟨some "a", some "a@x", some ["admin"], none⟩ [⟨"A", 5⟩] (.status 200),
      .dec ⟨some "u", some "u@x", some [], none⟩ [⟨"B", 0⟩] (.status 200),
      .inc ⟨"B", 3⟩,
      .create [⟨"C", 0⟩],
      .del ["A"]]
     (by decide) (by decide)⟩

/-- C9: when the `X-Override-Key` header is present and equals the
configured (non-empty) `OVERRIDE_KEY`, `get_current_admin_user` returns the
fixed override-admin identity — user_id "override_admin", role ["admin"] —
without inspecting the bearer identity's roles: any holder of a valid
non-admin token plus the override key passes the admin-only dependency
guarding the create, delete and increase endpoints. -/
theorem C9_override_key_bypasses_role_check (cfg : String) (j : JwtOutcome)
    (u : UserDict) (hcfg : cfg ≠ "")
    (hu : get_current_user j = .okUser u)
    (hrole : "admin" ∉ u.role.getD []) :
    get_current_admin_user (some cfg) j (some cfg)
      = .okUser ⟨some "override_admin", some "admin@example.com",
          some ["admin"], none⟩ := by
  unfold get_current_admin_user
  rw [hu]
  simp [headerTruthy, overrideKeyMatches, hcfg]

/-- Witness for C9: a customer-role token together with the override key
"sesame" yields the override-admin identity. -/
theorem C9_override_key_bypasses_role_check_witness :
    get_current_admin_user (some "sesame")
        (.decoded ⟨some "u1", some "u1@x", some ["customer"]⟩) (some "sesame")
      = .okUser ⟨some "override_admin", some "admin@example.com",
          some ["admin"], none⟩ :=
  C9_override_key_bypasses_role_check "sesame"
    (.decoded ⟨some "u1", some "u1@x", some ["customer"]⟩)
    ⟨some "u1", some "u1@x", some ["customer"], none⟩
    (by decide) (by decide) (by decide)

/-- C10: `delete_products` is not atomic. It deletes sequentially with no
transaction, so when a later entry's productCode does not exist the loop
stops with a 404 while the deletions already performed persist: for any
store where sku₁ exists and sku₂ does not survive sku₁'s deletion lookup,
the request [sku₁, sku₂] answers 404 for sku₂ yet leaves a store from which
sku₁ has already been removed — unlike the all-or-nothing decrement batch. -/
theorem C10_delete_not_atomic (store : Store) (sku₁ sku₂ : String) (s₁ : Int)
    (h₁ : lookupStock store sku₁ = some s₁)
    (h₂ : lookupStock (deleteSku store sku₁) sku₂ = none) :
    delete_products store [sku₁, sku₂] = (.err404 sku₂, deleteSku store sku₁) ∧
    lookupStock (deleteSku store sku₁) sku₁ = none := by
  constructor
  · simp [delete_products, delLoop, h₁, h₂]
  · exact lookupStock_deleteSku_self store sku₁

/-- Witness for C10: deleting ["A", "B"] from the one-product store A=1
returns 404 for B with A already gone. -/
theorem C10_delete_not_atomic_witness :
    delete_products [("A", 1)] ["A", "B"] = (.err404 "B", []) ∧
    lookupStock (deleteSku [("A", 1)] "A") "A" = none := by
  have h := C10_delete_not_atomic [("A", 1)] "A" "B" 1 (by decide) (by decide)
  exact h
